import Mathlib

/-!
Verification of `notify_on_failure.py` (gitlab-ci-slack-alert).

The script is sequential glue: read environment variables, run one `git show`
subprocess, call three Slack Web-API endpoints, and format strings.  We embed
it shallowly:

* the process environment is a record of `Option String` fields
  (`none` = variable unset; Python's `os.environ.get` distinguishes unset
  from set-to-empty, and so do we);
* every external effect (subprocess, Slack API call, log line) is recorded in
  a trace of `Event`s, and the outcome of each external call is supplied by a
  `World` record of oracle functions — the program itself is a pure function
  `Env → World → List Event × Except PyExn Nat`;
* Python exceptions that the script can actually raise on some path
  (`AssertionError` from the `assert e.response["error"]` lines, and the
  `UnboundLocalError` from `print(response)` in `post_message`'s except
  branch, where `response` was never bound) are modelled with `Except`;
  an uncaught exception makes the interpreter exit with status 1
  (`exitStatus`);
* `json.loads` and Python's `re.search` for the user-supplied branch pattern
  are library code, not repository code, so they are oracle fields of
  `World`; the one regex that is fixed in the source, `<([^>]+)>` in
  `parse_email_from_ci_commit_author`, is implemented concretely
  (`searchAngle`).

Line numbers in doc comments refer to `src/notify_on_failure.py`.
-/

set_option linter.unusedVariables false

namespace NotifyOnFailure

/-! ## Small Python-string helpers -/

/-- The ASCII whitespace characters removed by Python's `str.strip()`:
space, tab, newline, carriage return, vertical tab, form feed. -/
def pyWS (c : Char) : Bool :=
  c = ' ' || c = '\t' || c = '\n' || c = '\r' || c = Char.ofNat 11 || c = Char.ofNat 12

def pyStripList (cs : List Char) : List Char :=
  ((cs.dropWhile pyWS).reverse.dropWhile pyWS).reverse

/-- Python `str.strip()` (ASCII whitespace fragment). -/
def pyStrip (s : String) : String := String.mk (pyStripList s.data)

/-- A single ASCII apostrophe, used in the branch-filter log line. -/
def sq : String := String.mk [Char.ofNat 39]

/-- The three mojibake characters (U+00E2 U+2020 U+2019) that line 154 of the
source inserts before the pipeline URL in the summary text. -/
def arrowGlyphs : String := String.mk [Char.ofNat 0xE2, Char.ofNat 0x2020, Char.ofNat 0x2019]

/-! ## JSON values (result of `json.loads`) -/

/-- A parsed JSON value, as produced by `json.loads`.  Numbers are modelled by
the integer fragment; no claim depends on numeric JSON content. -/
inductive Json where
  | null
  | bool (b : Bool)
  | num (n : Int)
  | str (s : String)
  | arr (xs : List Json)
  | obj (kvs : List (String × Json))

/-- Lookup in a parsed JSON object.  `json.loads` builds a Python dict, where
a duplicated key keeps the last occurrence, hence `getLast?`. -/
def jsonGetLast (kvs : List (String × Json)) (k : String) : Option Json :=
  (kvs.filterMap (fun p => if p.1 = k then some p.2 else none)).getLast?

/-! ## Environment, oracle world, events -/

/-- The process environment: each field is one environment variable the
script reads (`none` = unset). -/
structure Env where
  slack_bot_token : Option String
  slack_fallback_channel : Option String
  slack_mappings_json : Option String
  notify_branch_regex : Option String
  ci_project_path : Option String
  ci_project_namespace : Option String
  ci_project_name : Option String
  ci_commit_sha : Option String
  ci_commit_ref_name : Option String
  ci_commit_title : Option String
  ci_pipeline_id : Option String
  ci_pipeline_url : Option String
  ci_commit_author : Option String
  gitlab_user_email : Option String
  ci_project_dir : Option String

/-- The empty environment (every variable unset). -/
def Env.empty : Env :=
  ⟨none, none, none, none, none, none, none, none, none, none, none, none, none, none, none⟩

/-- Lines 39–40: `os.environ.get(name, default)`. -/
def getenv (v : Option String) (default : String) : String := v.getD default

/-- The payload of a `SlackApiError`: `error` models `e.response["error"]`,
`msg` models `str(e)` (used when the script logs the exception). -/
structure SlackErr where
  error : String
  msg : String
deriving DecidableEq, Repr

/-- Outcome of one `slack_sdk.WebClient` method call: success with the piece of
the response the script reads, or a raised `SlackApiError`. -/
inductive CallResult (α : Type) where
  | ok (a : α)
  | apiError (e : SlackErr)
deriving DecidableEq, Repr

/-- The Python exceptions that reachable paths of the script can raise. -/
inductive PyExn where
  | assertionError
  | unboundLocalError
deriving DecidableEq, Repr

inductive OutChan where
  | stdout
  | stderr
deriving DecidableEq, Repr

/-- One observable step: an external call (subprocess or Slack API) or a log
line written by `print`. -/
inductive Event where
  | gitConfigSafeDir (dir : String)
  | gitFetchUnshallow
  | gitShowCall (sha : String)
  | slackUsersLookupByEmail (email : String)
  | slackConversationsOpen (users : String)
  | slackChatPostMessage (channel text : String) (blocks : List Json)
  | log (chan : OutChan) (msg : String)

/-- External calls are every event except log lines. -/
def Event.isExternal : Event → Bool
  | .log _ _ => false
  | _ => true

/-- `chat.postMessage` calls only. -/
def Event.isPost : Event → Bool
  | .slackChatPostMessage _ _ _ => true
  | _ => false

def externalEvents (t : List Event) : List Event := t.filter Event.isExternal

def postEvents (t : List Event) : List Event := t.filter Event.isPost

/-- The channel arguments of the `chat.postMessage` calls in a trace. -/
def postChannels (t : List Event) : List String :=
  t.filterMap fun e =>
    match e with
    | .slackChatPostMessage c _ _ => some c
    | _ => none

/-- Oracle for everything outside the script: outcomes of the subprocesses,
of `json.loads`, of Python's `re.search` on the user-supplied branch pattern,
and of the three Slack API endpoints. -/
structure World where
  /-- `re.search(pattern, s) is not None` for a valid user-supplied pattern. -/
  reSearch : String → String → Bool
  /-- `subprocess.check_output(["git","show","-s","--format=%ae", sha])`:
  `some out` = the decoded stdout, `none` = any raised exception. -/
  gitShow : String → Option String
  /-- Whether `subprocess.run(["git","config",...])` in the `__main__`
  preamble raises when spawning (e.g. `git` binary absent); `check=False`
  means a mere non-zero git exit does not raise. -/
  gitConfigSpawnFails : Bool
  /-- `json.loads`: `.error s` = a raised exception with `str(e) = s`. -/
  jsonLoads : String → Except String Json
  /-- `users.lookupByEmail`; `ok` carries `response["user"]["id"]`. -/
  usersLookupByEmail : String → CallResult String
  /-- `conversations.open`; `ok` carries `response["channel"]["id"]`. -/
  conversationsOpen : String → CallResult String
  /-- `chat.postMessage` with channel, text, blocks. -/
  chatPostMessage : String → String → List Json → CallResult Unit

/-! ## The script's functions -/

/-- Lines 43–51: run `git show -s --format=%ae SHA`, strip the output, return
`""` on any exception. -/
def run_git_show_email (w : World) (commit_sha : String) : List Event × String :=
  ([Event.gitShowCall commit_sha],
   match w.gitShow commit_sha with
   | some out => pyStrip out
   | none => "")

/-- Leftmost-match capture of the fixed regex `<([^>]+)>` of line 58: at each
position, a `<` matches when the maximal run of non-`>` characters after it is
non-empty and is followed by a `>`; otherwise the scan advances one position. -/
def searchAngle : List Char → Option (List Char)
  | [] => none
  | c :: rest =>
    if c = '<' then
      let cap := rest.takeWhile (fun d => d ≠ '>')
      let rest2 := rest.dropWhile (fun d => d ≠ '>')
      if !cap.isEmpty && !rest2.isEmpty then some cap else searchAngle rest
    else searchAngle rest

/-- Lines 54–59: extract an email from a `Name <email>` field;
`m.group(1).strip()` on a match, `""` on no match or falsy input. -/
def parse_email_from_ci_commit_author (s : String) : String :=
  if s = "" then ""
  else
    match searchAngle s.data with
    | some cap => pyStrip (String.mk cap)
    | none => ""

/-- Lines 63–76: `users.lookupByEmail`.  Empty email short-circuits with `""`
and no API call.  On `SlackApiError` the handler first runs
`assert e.response["error"]` — an empty error field raises `AssertionError` —
then logs and returns `""`. -/
def lookup_user_id_by_email (w : World) (email : String) :
    List Event × Except PyExn String :=
  if email = "" then ([], Except.ok "")
  else
    match w.usersLookupByEmail email with
    | CallResult.ok uid => ([Event.slackUsersLookupByEmail email], Except.ok uid)
    | CallResult.apiError e =>
      if e.error = "" then
        ([Event.slackUsersLookupByEmail email], Except.error PyExn.assertionError)
      else
        ([Event.slackUsersLookupByEmail email,
          Event.log OutChan.stderr ("Slack email lookup failed: " ++ e.msg)],
         Except.ok "")

/-- Lines 79–89: `conversations.open`.  On `SlackApiError` the handler prints
first, then runs `assert e.response["error"]`, then returns `""`. -/
def open_dm (w : World) (user_id : String) : List Event × Except PyExn String :=
  match w.conversationsOpen user_id with
  | CallResult.ok ch => ([Event.slackConversationsOpen user_id], Except.ok ch)
  | CallResult.apiError e =>
    ([Event.slackConversationsOpen user_id,
      Event.log OutChan.stderr ("conversations.open error: " ++ e.msg)],
     if e.error = "" then Except.error PyExn.assertionError else Except.ok "")

/-- Lines 92–103: `chat.postMessage`.  Two faithful oddities of the source:
the call passes the literal `"ci"` as the channel, ignoring the `channel`
parameter (line 95); and in the except branch, after
`assert e.response["error"]`, `print(response)` reads the local `response`
that was never bound (the call raised), so the branch raises
`UnboundLocalError` and `return False` is unreachable. -/
def post_message (w : World) (channel text : String) (blocks : List Json) :
    List Event × Except PyExn Bool :=
  match w.chatPostMessage "ci" text blocks with
  | CallResult.ok _ => ([Event.slackChatPostMessage "ci" text blocks], Except.ok true)
  | CallResult.apiError e =>
    ([Event.slackChatPostMessage "ci" text blocks],
     if e.error = "" then Except.error PyExn.assertionError
     else Except.error PyExn.unboundLocalError)

/-- Lines 106–115: static mapping lookup
`json.loads(SLACK_MAPPINGS_JSON)["email_to_user_id"][email]`, with
`except Exception` around the whole body: a malformed blob, or a well-formed
blob of the wrong shape (where `.get` raises `AttributeError`), is logged and
yields `""`.  For a shape mismatch the logged `str(e)` is Python's
`AttributeError` text, abbreviated here to its class name.  A mapped value
that is not a JSON string falls outside the documented
`{email: id}` shape and is modelled as no mapping. -/
def load_mapping_user_id (env : Env) (w : World) (email : String) :
    List Event × String :=
  let mapping_raw := getenv env.slack_mappings_json ""
  if mapping_raw = "" || email = "" then ([], "")
  else
    match w.jsonLoads mapping_raw with
    | Except.error emsg =>
      ([Event.log OutChan.stderr ("SLACK_MAPPINGS_JSON parse error: " ++ emsg)], "")
    | Except.ok (Json.obj kvs) =>
      match jsonGetLast kvs "email_to_user_id" with
      | some (Json.obj kvs2) =>
        match jsonGetLast kvs2 email with
        | some (Json.str v) => ([], v)
        | some _ => ([], "")
        | none => ([], "")
      | some _ =>
        ([Event.log OutChan.stderr "SLACK_MAPPINGS_JSON parse error: AttributeError"], "")
      | none => ([], "")
    | Except.ok _ =>
      ([Event.log OutChan.stderr "SLACK_MAPPINGS_JSON parse error: AttributeError"], "")

/-! ## `main` (lines 118–205), decomposed along its source order -/

/-- Lines 133–139: three-tier author resolution.  `git show` is always run;
its stripped result, if non-empty, wins; else the `<...>` capture from
`CI_COMMIT_AUTHOR`, if non-empty; else the raw `GITLAB_USER_EMAIL`. -/
def resolve_author_email (env : Env) (w : World) : List Event × String :=
  let g := (run_git_show_email w (getenv env.ci_commit_sha "")).2
  let a1 := if g = "" then parse_email_from_ci_commit_author (getenv env.ci_commit_author "") else g
  let a2 := if a1 = "" then getenv env.gitlab_user_email "" else a1
  ((run_git_show_email w (getenv env.ci_commit_sha "")).1, a2)

/-- Line 146: `CI_PROJECT_PATH or f"{namespace}/{name}"`. -/
def project_path_of (env : Env) : String :=
  let p := getenv env.ci_project_path ""
  if p = "" then getenv env.ci_project_namespace "" ++ "/" ++ getenv env.ci_project_name ""
  else p

/-- Line 147: `(commit_sha or "unknown")[:8]`. -/
def short_sha_of (env : Env) : String :=
  let sha := getenv env.ci_commit_sha ""
  String.mk ((if sha = "" then "unknown" else sha).data.take 8)

/-- Lines 152–154: the plain-text summary (with the mojibake arrow of the
source before the pipeline URL). -/
def summary_of (env : Env) : String :=
  let s := "A job failed in pipeline " ++ getenv env.ci_pipeline_id "" ++ " for "
    ++ project_path_of env
  if getenv env.ci_pipeline_url "" = "" then s
  else s ++ " " ++ arrowGlyphs ++ " " ++ getenv env.ci_pipeline_url ""

/-- Lines 157–179: the Block Kit payload. -/
def blocks_of (env : Env) (author_email : String) : List Json :=
  let base := [
    Json.obj [("type", Json.str "header"),
      ("text", Json.obj [("type", Json.str "plain_text"),
        ("text", Json.str "Pipeline failed"), ("emoji", Json.bool true)])],
    Json.obj [("type", Json.str "section"),
      ("fields", Json.arr [
        Json.obj [("type", Json.str "mrkdwn"),
          ("text", Json.str ("*Project:* " ++ project_path_of env))],
        Json.obj [("type", Json.str "mrkdwn"),
          ("text", Json.str ("*Branch:* " ++ getenv env.ci_commit_ref_name "unknown"))],
        Json.obj [("type", Json.str "mrkdwn"),
          ("text", Json.str ("*Commit:* `" ++ short_sha_of env ++ "`"))],
        Json.obj [("type", Json.str "mrkdwn"),
          ("text", Json.str ("*Author:* " ++
            (if author_email = "" then "unknown" else author_email)))]])],
    Json.obj [("type", Json.str "section"),
      ("text", Json.obj [("type", Json.str "mrkdwn"),
        ("text", Json.str ("*Commit title:* " ++ getenv env.ci_commit_title "(no title)"))])]]
  if getenv env.ci_pipeline_url "" = "" then base
  else base ++ [Json.obj [("type", Json.str "section"),
    ("text", Json.obj [("type", Json.str "mrkdwn"),
      ("text", Json.str ("<" ++ getenv env.ci_pipeline_url "" ++ "|Open the failed pipeline>"))])]]

/-- Lines 182–184: `load_mapping_user_id(email) or lookup_user_id_by_email(client, email)`,
guarded by `if author_email`.  Python's `or` short-circuits: a non-empty
static-mapping hit suppresses the remote lookup. -/
def resolve_slack_user_id (env : Env) (w : World) (author_email : String) :
    List Event × Except PyExn String :=
  if author_email = "" then ([], Except.ok "")
  else
    let t1 := (load_mapping_user_id env w author_email).1
    let m := (load_mapping_user_id env w author_email).2
    if m = "" then
      (t1 ++ (lookup_user_id_by_email w author_email).1,
       (lookup_user_id_by_email w author_email).2)
    else (t1, Except.ok m)

/-- Lines 197–205: the fallback-channel section. -/
def fallback_section (env : Env) (w : World) (summary author_email : String)
    (blocks : List Json) : List Event × Except PyExn Nat :=
  let fallback := getenv env.slack_fallback_channel ""
  if fallback = "" then
    ([Event.log OutChan.stderr "SLACK_FALLBACK_CHANNEL not set; nothing else to do."],
     Except.ok 0)
  else
    let text := summary ++ " (author: "
      ++ (if author_email = "" then "unknown" else author_email) ++ ")"
    let tP := (post_message w fallback text blocks).1
    match (post_message w fallback text blocks).2 with
    | Except.error ex => (tP, Except.error ex)
    | Except.ok ok =>
      (tP ++ [Event.log OutChan.stderr
        (if ok then "Posted to fallback channel." else "Posting to fallback channel failed.")],
       Except.ok 0)

/-- Lines 141–205 after the author email is resolved: the author log line,
summary/blocks construction, Slack user resolution, the DM attempt, and the
fallback section. -/
def notify_after_author (env : Env) (w : World) (author_email : String) :
    List Event × Except PyExn Nat :=
  let tA := if author_email = "" then
      [Event.log OutChan.stderr "Could not determine author email; will use fallback channel."]
    else [Event.log OutChan.stdout ("Commit author email: " ++ author_email)]
  let summary := summary_of env
  let blocks := blocks_of env author_email
  let tRes := (resolve_slack_user_id env w author_email).1
  match (resolve_slack_user_id env w author_email).2 with
  | Except.error ex => (tA ++ tRes, Except.error ex)
  | Except.ok slack_user_id =>
    if slack_user_id = "" then
      (tA ++ tRes
        ++ [Event.log OutChan.stderr "No Slack user id resolved; will try fallback channel."]
        ++ (fallback_section env w summary author_email blocks).1,
       (fallback_section env w summary author_email blocks).2)
    else
      let tO := (open_dm w slack_user_id).1
      match (open_dm w slack_user_id).2 with
      | Except.error ex => (tA ++ tRes ++ tO, Except.error ex)
      | Except.ok channel_id =>
        if channel_id = "" then
          (tA ++ tRes ++ tO
            ++ [Event.log OutChan.stderr "DM failed; will try fallback channel."]
            ++ (fallback_section env w summary author_email blocks).1,
           (fallback_section env w summary author_email blocks).2)
        else
          let tP := (post_message w channel_id summary blocks).1
          match (post_message w channel_id summary blocks).2 with
          | Except.error ex => (tA ++ tRes ++ tO ++ tP, Except.error ex)
          | Except.ok true =>
            (tA ++ tRes ++ tO ++ tP ++ [Event.log OutChan.stdout "DM sent successfully."],
             Except.ok 0)
          | Except.ok false =>
            (tA ++ tRes ++ tO ++ tP
              ++ [Event.log OutChan.stderr "DM failed; will try fallback channel."]
              ++ (fallback_section env w summary author_email blocks).1,
             (fallback_section env w summary author_email blocks).2)

/-- Lines 133–205: everything in `main` after the branch filter. -/
def main_after_filter (env : Env) (w : World) : List Event × Except PyExn Nat :=
  ((resolve_author_email env w).1
     ++ (notify_after_author env w (resolve_author_email env w).2).1,
   (notify_after_author env w (resolve_author_email env w).2).2)

/-- Lines 118–205: `main()`.  Constructing the `WebClient` makes no call.
An absent or empty token, or a branch-filter mismatch, returns 0 early. -/
def mainRun (env : Env) (w : World) : List Event × Except PyExn Nat :=
  let token := getenv env.slack_bot_token ""
  if token = "" then
    ([Event.log OutChan.stderr "SLACK_BOT_TOKEN is not set; exiting."], Except.ok 0)
  else
    let branch := getenv env.ci_commit_ref_name "unknown"
    let branch_regex := getenv env.notify_branch_regex ".*"
    if w.reSearch branch_regex branch then main_after_filter env w
    else
      ([Event.log OutChan.stdout ("Branch " ++ sq ++ branch ++ sq
          ++ " does not match NOTIFY_BRANCH_REGEX; skipping.")],
       Except.ok 0)

/-- Lines 208–217: the `__main__` preamble.  When `CI_PROJECT_DIR` is set and
non-empty it runs `git config --global --add safe.directory` and
`git fetch --unshallow` (both `check=False`; a spawn failure of the first is
caught by the surrounding `except` and skips the second). -/
def preamble_trace (env : Env) (w : World) : List Event :=
  match env.ci_project_dir with
  | none => []
  | some d =>
    if d = "" then []
    else if w.gitConfigSpawnFails then [Event.gitConfigSafeDir d]
    else [Event.gitConfigSafeDir d, Event.gitFetchUnshallow]

/-- Line 219: `sys.exit(main())`, preceded by the preamble. -/
def programRun (env : Env) (w : World) : List Event × Except PyExn Nat :=
  ((preamble_trace env w) ++ (mainRun env w).1, (mainRun env w).2)

/-- Process exit status: the value passed to `sys.exit`, or 1 when an uncaught
exception unwinds out of `main`. -/
def exitStatus (r : Except PyExn Nat) : Nat :=
  match r with
  | Except.ok n => n
  | Except.error _ => 1

/-! ## Concrete environments and worlds used by witnesses and counterexamples -/

/-- A baseline oracle world: permissive branch filter, failing `git show`,
malformed mapping JSON, API errors on the directory and conversation
endpoints, successful posts. -/
def wBase : World where
  reSearch := fun _ _ => true
  gitShow := fun _ => none
  gitConfigSpawnFails := false
  jsonLoads := fun _ => Except.error "Expecting value: line 1 column 1 (char 0)"
  usersLookupByEmail := fun _ => CallResult.apiError ⟨"users_not_found", "users_not_found"⟩
  conversationsOpen := fun _ => CallResult.apiError ⟨"user_not_found", "user_not_found"⟩
  chatPostMessage := fun _ _ _ => CallResult.ok ()

/-! ## Helper lemmas about traces -/

theorem postEvents_append (a b : List Event) :
    postEvents (a ++ b) = postEvents a ++ postEvents b := by
  simp [postEvents, List.filter_append]

theorem postEvents_load_mapping (env : Env) (w : World) (e : String) :
    postEvents (load_mapping_user_id env w e).1 = [] := by
  simp only [load_mapping_user_id]
  split
  · rfl
  · split <;> (try split) <;> (try split) <;> simp [postEvents, Event.isPost]

theorem postEvents_lookup (w : World) (e : String) :
    postEvents (lookup_user_id_by_email w e).1 = [] := by
  simp only [lookup_user_id_by_email]
  split
  · rfl
  · split <;> (try split) <;> simp [postEvents, Event.isPost]

theorem postEvents_resolve_user (env : Env) (w : World) (e : String) :
    postEvents (resolve_slack_user_id env w e).1 = [] := by
  simp only [resolve_slack_user_id]
  split
  · rfl
  · split
    · simp [postEvents_append, postEvents_load_mapping, postEvents_lookup]
    · simpa using postEvents_load_mapping env w e

theorem postEvents_open_dm (w : World) (u : String) :
    postEvents (open_dm w u).1 = [] := by
  simp only [open_dm]
  split <;> simp [postEvents, Event.isPost]

theorem postEvents_preamble (env : Env) (w : World) :
    postEvents (preamble_trace env w) = [] := by
  simp only [preamble_trace]
  split
  · rfl
  · split
    · rfl
    · split <;> simp [postEvents, Event.isPost]

theorem externalEvents_preamble (env : Env) (w : World) :
    externalEvents (preamble_trace env w) = preamble_trace env w := by
  simp only [preamble_trace]
  split
  · rfl
  · split
    · rfl
    · split <;> simp [externalEvents, Event.isExternal]

theorem lookup_emits_call (w : World) (e : String) (he : e ≠ "") :
    Event.slackUsersLookupByEmail e ∈ (lookup_user_id_by_email w e).1 := by
  simp only [lookup_user_id_by_email]
  rw [if_neg he]
  split <;> (try split) <;> simp

/-! ## Claim theorems -/

/-- C8: the author-string parser extracts the text inside the first
angle-bracket pair: `"Jane Doe <jane@x.com>"` parses to exactly
`"jane@x.com"`, `"Jane Doe"` (no angle brackets) parses to `""`, and the
empty input (also what an absent `CI_COMMIT_AUTHOR` produces through
`getenv`) parses to `""`. -/
theorem c8_parse_email_cases :
    parse_email_from_ci_commit_author "Jane Doe <jane@x.com>" = "jane@x.com"
    ∧ parse_email_from_ci_commit_author "Jane Doe" = ""
    ∧ parse_email_from_ci_commit_author "" = "" :=
  ⟨rfl, rfl, rfl⟩

/-- An environment for a full failing-pipeline run: token set, branch `main`,
a commit SHA, and a fallback channel configured. -/
def envRunA : Env := { Env.empty with
  slack_bot_token := some "xoxb-1"
  ci_commit_ref_name := some "main"
  ci_commit_sha := some "deadbeef00112233"
  slack_fallback_channel := some "#ci-failures" }

/-- A world in which author resolution, user lookup and `conversations.open`
all succeed but `chat.postMessage` raises a `SlackApiError`
(`channel_not_found` — the call posts to the literal channel `"ci"`). -/
def wPostErr : World := { wBase with
  gitShow := fun _ => some "dev@example.com\n"
  usersLookupByEmail := fun _ => CallResult.ok "U123"
  conversationsOpen := fun _ => CallResult.ok "D456"
  chatPostMessage := fun _ _ _ =>
    CallResult.apiError ⟨"channel_not_found", "channel_not_found"⟩ }

/-- C1: the claim says every reachable branch exits 0.  It does not hold at
this input: when `chat.postMessage` raises a `SlackApiError`, the except
branch of `post_message` runs `print(response)` with `response` never bound,
so an `UnboundLocalError` escapes `main` uncaught and the interpreter exits
with status 1. -/
theorem c1_post_error_exits_nonzero :
    (programRun envRunA wPostErr).2 = Except.error PyExn.unboundLocalError
    ∧ exitStatus (programRun envRunA wPostErr).2 = 1 :=
  ⟨rfl, rfl⟩

/-- Same environment, but `chat.postMessage` succeeds. -/
def wPostOk : World := { wPostErr with chatPostMessage := fun _ _ _ => CallResult.ok () }

/-- An environment with no author source and a fallback channel configured,
so the run takes the fallback path. -/
def envFallback : Env := { Env.empty with
  slack_bot_token := some "xoxb-1"
  ci_commit_ref_name := some "main"
  slack_fallback_channel := some "#ci-failures" }

/-- C2: the claim says every post is addressed to the destination resolved by
the DM/fallback logic.  It does not hold: on the DM path the conversation
resolved to channel id `"D456"`, yet the one `chat.postMessage` call is
addressed to the fixed literal `"ci"`; on the fallback path the configured
channel is `"#ci-failures"`, yet the call is again addressed to `"ci"`
(line 95 hard-codes `channel="ci"`). -/
theorem c2_post_targets_hardcoded_channel :
    (open_dm wPostOk "U123").2 = Except.ok "D456"
    ∧ postChannels (programRun envRunA wPostOk).1 = ["ci"]
    ∧ getenv envFallback.slack_fallback_channel "" = "#ci-failures"
    ∧ postChannels (programRun envFallback wPostOk).1 = ["ci"] :=
  ⟨rfl, rfl, rfl, rfl⟩

/-- Bot token unset but `CI_PROJECT_DIR` set, as in a normal CI container. -/
def envNoToken : Env := { Env.empty with ci_project_dir := some "/builds/group/proj" }

/-- C3 counterexample: with the bot token absent, the program still makes two
subprocess invocations (the `__main__` git preamble runs before the token
check whenever `CI_PROJECT_DIR` is set), so "zero external calls" is false as
stated; the exit status is 0. -/
theorem c3_counterexample :
    getenv envNoToken.slack_bot_token "" = ""
    ∧ externalEvents (programRun envNoToken wBase).1 =
        [Event.gitConfigSafeDir "/builds/group/proj", Event.gitFetchUnshallow]
    ∧ exitStatus (programRun envNoToken wBase).2 = 0 :=
  ⟨rfl, rfl, rfl⟩

/-- A world delivering a `SlackApiError` whose `response["error"]` field is
empty. -/
def wEmptyErrField : World := { wBase with
  usersLookupByEmail := fun _ =>
    CallResult.apiError ⟨"", "SlackApiError with empty error field"⟩ }

/-- C9 counterexample: the identity mapper can let an exception escape.  On a
`SlackApiError` whose `response["error"]` is empty, the handler's
`assert e.response["error"]` (line 73) fails, and the `AssertionError`
escapes `lookup_user_id_by_email` instead of yielding `""`. -/
theorem c9_counterexample :
    (lookup_user_id_by_email wEmptyErrField "a@x.com").2 =
      Except.error PyExn.assertionError :=
  rfl

/-- Like `envRunA` but with no fallback channel configured. -/
def envNoFallback : Env := { Env.empty with
  slack_bot_token := some "xoxb-3"
  ci_commit_ref_name := some "main"
  ci_commit_sha := some "cafebabe01234567" }

/-- A world where the DM is opened but the post raises (`invalid_blocks`). -/
def wPostErrB : World := { wBase with
  gitShow := fun _ => some "dev@example.com\n"
  usersLookupByEmail := fun _ => CallResult.ok "U777"
  conversationsOpen := fun _ => CallResult.ok "D888"
  chatPostMessage := fun _ _ _ =>
    CallResult.apiError ⟨"invalid_blocks", "invalid_blocks"⟩ }

/-- C10: the claim says that when the direct-message path fails and the
fallback channel is unset, the process makes no further post call and exits 0.
The "no further post" part holds at this input (exactly one `chat.postMessage`
call was made, the DM one), but the process does not exit 0: the failing DM
post raises `UnboundLocalError` out of `post_message`'s except branch
(`print(response)` on the never-bound `response`), and the interpreter exits
with status 1. -/
theorem c10_dm_post_error_crashes :
    getenv envNoFallback.slack_fallback_channel "" = ""
    ∧ (postEvents (programRun envNoFallback wPostErrB).1).length = 1
    ∧ (programRun envNoFallback wPostErrB).2 = Except.error PyExn.unboundLocalError
    ∧ exitStatus (programRun envNoFallback wPostErrB).2 = 1 :=
  ⟨rfl, rfl, rfl, rfl⟩

/-- C5: the resolved author email follows the fixed three-tier precedence of
lines 133–139: if the stripped `git show` output is non-empty it is the
result; otherwise, if the email parsed out of `CI_COMMIT_AUTHOR` is non-empty
it is the result; otherwise the result is the raw `GITLAB_USER_EMAIL` value.
A later tier's value is used only when every earlier tier yielded `""`. -/
theorem c5_author_tier_precedence (env : Env) (w : World) :
    ((run_git_show_email w (getenv env.ci_commit_sha "")).2 ≠ "" →
      (resolve_author_email env w).2 = (run_git_show_email w (getenv env.ci_commit_sha "")).2)
    ∧ ((run_git_show_email w (getenv env.ci_commit_sha "")).2 = "" →
       parse_email_from_ci_commit_author (getenv env.ci_commit_author "") ≠ "" →
       (resolve_author_email env w).2 =
         parse_email_from_ci_commit_author (getenv env.ci_commit_author ""))
    ∧ ((run_git_show_email w (getenv env.ci_commit_sha "")).2 = "" →
       parse_email_from_ci_commit_author (getenv env.ci_commit_author "") = "" →
       (resolve_author_email env w).2 = getenv env.gitlab_user_email "") := by
  refine ⟨fun h1 => ?_, fun h1 h2 => ?_, fun h1 h2 => ?_⟩ <;>
    simp [resolve_author_email, h1, *]

def envW5 : Env := { Env.empty with ci_commit_sha := some "abc123" }

def wW5 : World := { wBase with gitShow := fun _ => some " g@x.com\n" }

/-- Concrete instance of `c5_author_tier_precedence`: a successful `git show`
wins the first tier. -/
theorem c5_witness :
    (run_git_show_email wW5 (getenv envW5.ci_commit_sha "")).2 ≠ ""
    ∧ (resolve_author_email envW5 wW5).2 =
        (run_git_show_email wW5 (getenv envW5.ci_commit_sha "")).2 :=
  ⟨by decide, (c5_author_tier_precedence envW5 wW5).1 (by decide)⟩

/-- C4: with the bot token present, the notification pipeline proceeds past
the branch filter — witnessed by the first post-filter action, the `git show`
subprocess call — exactly when `re.search` finds the allow pattern
(`NOTIFY_BRANCH_REGEX`, default `".*"`) in the branch name; on a mismatch,
`main` emits only the skip log line, contacts no external service, and
returns 0. -/
theorem c4_branch_filter (env : Env) (w : World)
    (htok : getenv env.slack_bot_token "" ≠ "") :
    (Event.gitShowCall (getenv env.ci_commit_sha "") ∈ (mainRun env w).1 ↔
      w.reSearch (getenv env.notify_branch_regex ".*")
        (getenv env.ci_commit_ref_name "unknown") = true)
    ∧ (w.reSearch (getenv env.notify_branch_regex ".*")
         (getenv env.ci_commit_ref_name "unknown") = false →
       externalEvents (mainRun env w).1 = []
       ∧ mainRun env w =
           ([Event.log OutChan.stdout ("Branch " ++ sq
              ++ getenv env.ci_commit_ref_name "unknown" ++ sq
              ++ " does not match NOTIFY_BRANCH_REGEX; skipping.")], Except.ok 0)) := by
  by_cases hs : w.reSearch (getenv env.notify_branch_regex ".*")
      (getenv env.ci_commit_ref_name "unknown") = true
  · refine ⟨⟨fun _ => hs, fun _ => ?_⟩, fun hf => ?_⟩
    · simp [mainRun, htok, hs, main_after_filter, resolve_author_email, run_git_show_email]
    · rw [hs] at hf; cases hf
  · rw [Bool.not_eq_true] at hs
    refine ⟨?_, fun _ => ⟨?_, ?_⟩⟩
    · simp [mainRun, htok, hs, externalEvents, Event.isExternal]
    · simp [mainRun, htok, hs, externalEvents, Event.isExternal]
    · simp [mainRun, htok, hs]

def envW4 : Env := { Env.empty with
  slack_bot_token := some "xoxb-4"
  ci_commit_ref_name := some "dev" }

def wNoMatch : World := { wBase with reSearch := fun _ _ => false }

/-- Concrete instance of `c4_branch_filter`: a non-matching branch causes no
external call. -/
theorem c4_witness :
    getenv envW4.slack_bot_token "" ≠ ""
    ∧ externalEvents (mainRun envW4 wNoMatch).1 = [] :=
  ⟨by decide, ((c4_branch_filter envW4 wNoMatch (by decide)).2 rfl).1⟩

/-- C3 (amended): if the bot-token environment variable is absent (unset or
empty), `main` itself makes zero external calls — no subprocess and no Slack
API call — and the process exits 0; the only external activity of the whole
program is the `__main__` git preamble (`safe.directory` config and
`--unshallow` fetch), which runs exactly when `CI_PROJECT_DIR` is set,
regardless of the token, and in particular the program makes zero external
calls when `CI_PROJECT_DIR` is also unset. -/
theorem c3_amended_token_absent (env : Env) (w : World)
    (h : getenv env.slack_bot_token "" = "") :
    externalEvents (mainRun env w).1 = []
    ∧ externalEvents (programRun env w).1 = preamble_trace env w
    ∧ (env.ci_project_dir = none → externalEvents (programRun env w).1 = [])
    ∧ exitStatus (programRun env w).2 = 0 := by
  have hm : mainRun env w =
      ([Event.log OutChan.stderr "SLACK_BOT_TOKEN is not set; exiting."], Except.ok 0) := by
    simp [mainRun, h]
  have h2 : externalEvents (programRun env w).1 = preamble_trace env w := by
    show externalEvents (preamble_trace env w ++ (mainRun env w).1) = preamble_trace env w
    rw [hm]
    have h3 := externalEvents_preamble env w
    simp only [externalEvents, List.filter_append] at h3 ⊢
    simp [h3, Event.isExternal]
  refine ⟨by rw [hm]; rfl, h2, fun hd => ?_, by simp [programRun, hm, exitStatus]⟩
  rw [h2]
  simp [preamble_trace, hd]

/-- Concrete instance of `c3_amended_token_absent` at an unset token. -/
theorem c3_witness :
    getenv envNoToken.slack_bot_token "" = ""
    ∧ externalEvents (programRun envNoToken wBase).1 = preamble_trace envNoToken wBase
    ∧ exitStatus (programRun envNoToken wBase).2 = 0 :=
  ⟨rfl, (c3_amended_token_absent envNoToken wBase rfl).2.1,
    (c3_amended_token_absent envNoToken wBase rfl).2.2.2⟩


/-- C9 (amended): the static-mapping tier never raises — a malformed
`SLACK_MAPPINGS_JSON` blob is caught, logged to stderr, and treated as no
mapping (`""`) — and a `SlackApiError` from the remote lookup-by-email call
whose `response["error"]` field is non-empty is caught, logged, and turned
into an empty-string result.  (As stated the claim is false: the handler
asserts the error field is truthy, so a `SlackApiError` with an empty
`response["error"]` escapes as `AssertionError` — see
`c9_counterexample`.) -/
theorem c9_amended_mapper_catches (env : Env) (w : World) (email emsg : String)
    (hraw : getenv env.slack_mappings_json "" ≠ "")
    (hemail : email ≠ "")
    (hjson : w.jsonLoads (getenv env.slack_mappings_json "") = Except.error emsg) :
    load_mapping_user_id env w email =
      ([Event.log OutChan.stderr ("SLACK_MAPPINGS_JSON parse error: " ++ emsg)], "")
    ∧ (∀ (w2 : World) (e : String) (err : SlackErr), err.error ≠ "" →
        w2.usersLookupByEmail e = CallResult.apiError err →
        (lookup_user_id_by_email w2 e).2 = Except.ok "") := by
  constructor
  · simp [load_mapping_user_id, hraw, hemail, hjson]
  · intro w2 e err herr hw
    by_cases he : e = ""
    · simp [lookup_user_id_by_email, he]
    · simp [lookup_user_id_by_email, he, hw, herr]

def envW9 : Env := { Env.empty with slack_mappings_json := some "not json" }

/-- Concrete instance of `c9_amended_mapper_catches`: an unparsable blob is
logged and treated as no mapping. -/
theorem c9_witness :
    load_mapping_user_id envW9 wBase "a@x.com" =
      ([Event.log OutChan.stderr ("SLACK_MAPPINGS_JSON parse error: "
          ++ "Expecting value: line 1 column 1 (char 0)")], "") :=
  (c9_amended_mapper_catches envW9 wBase "a@x.com"
    "Expecting value: line 1 column 1 (char 0)" (by decide) (by decide) rfl).1

/-- C7: identity resolution short-circuits on the static table.  Given
`SLACK_MAPPINGS_JSON` parsing to `{"email_to_user_id": {"a@x.com": "U1"}}`
and resolved email `"a@x.com"`, the mapper returns `"U1"` with an empty
event trace — in particular the remote `users.lookupByEmail` call is not
made; and whenever the static table yields no mapping for a non-empty email,
resolution falls through to the remote lookup (the lookup call appears in
the trace). -/
def mapping_blob : String := "\x7b\"email_to_user_id\":\x7b\"a@x.com\":\"U1\"\x7d\x7d"

def mapping_json : Json :=
  Json.obj [("email_to_user_id", Json.obj [("a@x.com", Json.str "U1")])]

theorem c7_static_mapping_short_circuit (env : Env) (w : World)
    (h1 : getenv env.slack_mappings_json "" = mapping_blob)
    (h2 : w.jsonLoads mapping_blob = Except.ok mapping_json) :
    resolve_slack_user_id env w "a@x.com" = ([], Except.ok "U1")
    ∧ (∀ e, e ≠ "" → (load_mapping_user_id env w e).2 = "" →
        Event.slackUsersLookupByEmail e ∈ (resolve_slack_user_id env w e).1) := by
  have hm : load_mapping_user_id env w "a@x.com" = ([], "U1") := by
    simp only [load_mapping_user_id, h1, h2]
    rfl
  constructor
  · simp only [resolve_slack_user_id, hm]
    rfl
  · intro e he hm2
    simp [resolve_slack_user_id, he, hm2]
    exact Or.inr (lookup_emits_call w e he)

def envW7 : Env := { Env.empty with slack_mappings_json := some mapping_blob }

def wW7 : World := { wBase with
  jsonLoads := fun s =>
    if s = mapping_blob then Except.ok mapping_json
    else Except.error "Expecting value: line 1 column 1 (char 0)" }

/-- Concrete instance of `c7_static_mapping_short_circuit` at the claim's
example blob. -/
theorem c7_witness :
    resolve_slack_user_id envW7 wW7 "a@x.com" = ([], Except.ok "U1") :=
  (c7_static_mapping_short_circuit envW7 wW7 rfl rfl).1


theorem postEvents_nil : postEvents [] = [] := rfl

theorem postEvents_cons (e : Event) (t : List Event) :
    postEvents (e :: t) = if Event.isPost e then e :: postEvents t else postEvents t := by
  simp [postEvents, List.filter_cons]

/-- C6: if the direct-message send succeeds — the conversation opens with a
non-empty channel id and the post reports success — then the run performs
exactly one `chat.postMessage` call in total (so the fallback-channel post is
never performed) and exits 0. -/
theorem c6_dm_success_single_post (env : Env) (w : World) (uid ch : String)
    (htok : getenv env.slack_bot_token "" ≠ "")
    (hsearch : w.reSearch (getenv env.notify_branch_regex ".*")
        (getenv env.ci_commit_ref_name "unknown") = true)
    (huid : (resolve_slack_user_id env w (resolve_author_email env w).2).2 = Except.ok uid)
    (huidne : uid ≠ "")
    (hopen : w.conversationsOpen uid = CallResult.ok ch)
    (hch : ch ≠ "")
    (hpost : w.chatPostMessage "ci" (summary_of env)
        (blocks_of env (resolve_author_email env w).2) = CallResult.ok ()) :
    (postEvents (programRun env w).1).length = 1
    ∧ (programRun env w).2 = Except.ok 0 := by
  have hopen2 : open_dm w uid = ([Event.slackConversationsOpen uid], Except.ok ch) := by
    simp [open_dm, hopen]
  have hpost2 : post_message w ch (summary_of env) (blocks_of env (resolve_author_email env w).2)
      = ([Event.slackChatPostMessage "ci" (summary_of env)
            (blocks_of env (resolve_author_email env w).2)], Except.ok true) := by
    simp [post_message, hpost]
  have hnot : notify_after_author env w (resolve_author_email env w).2 =
      ((if (resolve_author_email env w).2 = "" then
          [Event.log OutChan.stderr "Could not determine author email; will use fallback channel."]
        else [Event.log OutChan.stdout ("Commit author email: " ++ (resolve_author_email env w).2)])
        ++ (resolve_slack_user_id env w (resolve_author_email env w).2).1
        ++ [Event.slackConversationsOpen uid]
        ++ [Event.slackChatPostMessage "ci" (summary_of env)
              (blocks_of env (resolve_author_email env w).2)]
        ++ [Event.log OutChan.stdout "DM sent successfully."],
       Except.ok 0) := by
    simp only [notify_after_author, huid, hopen2, hpost2]
    rw [if_neg huidne, if_neg hch]
  have hmain : mainRun env w = main_after_filter env w := by
    simp [mainRun, htok, hsearch]
  have hres1 : (resolve_author_email env w).1
      = [Event.gitShowCall (getenv env.ci_commit_sha "")] := rfl
  constructor
  · show (postEvents (preamble_trace env w ++ (mainRun env w).1)).length = 1
    rw [hmain]
    show (postEvents (preamble_trace env w
      ++ ((resolve_author_email env w).1
          ++ (notify_after_author env w (resolve_author_email env w).2).1))).length = 1
    rw [hnot, hres1]
    by_cases ha : (resolve_author_email env w).2 = "" <;>
      simp [ha, postEvents_append, postEvents_cons, postEvents_nil,
        postEvents_preamble, postEvents_resolve_user, Event.isPost]
  · show (mainRun env w).2 = Except.ok 0
    rw [hmain]
    show (notify_after_author env w (resolve_author_email env w).2).2 = Except.ok 0
    rw [hnot]

/-- Concrete instance of `c6_dm_success_single_post`: a fully successful DM
run posts exactly once and exits 0. -/
theorem c6_witness :
    (postEvents (programRun envRunA wPostOk).1).length = 1
    ∧ (programRun envRunA wPostOk).2 = Except.ok 0 :=
  c6_dm_success_single_post envRunA wPostOk "U123" "D456" (by decide) rfl rfl
    (by decide) rfl (by decide) rfl

end NotifyOnFailure
